import Mathlib

/-!
Verification of the physics/clock/particle core of the Duality double-slit
visualization.

The development shallowly embeds four parts of the source:

* `getInterferenceIntensity` (src/hooks/useParticleSystem.ts and the identical
  copy in src/components/DoubleSlitExperiment.tsx) over the real numbers;
* the parameter validator `validateParam` / `validatePhysicsConstraints`
  (src/contexts/SimulationContext.tsx) over a model of JavaScript numbers
  (rational payload plus NaN and the two infinities, with IEEE-style
  comparison semantics);
* the animation-loop clock `animate` callback
  (src/hooks/useAnimationLoop.ts and src/components/DoubleSlitExperiment.tsx)
  over rational timestamps;
* the particle generation / reset / visibility effects of
  src/components/DoubleSlitExperiment.tsx as state transformers.
-/

namespace Duality

/-- The `PhysicsParams` record of src/types.ts, with JavaScript numbers read
as real numbers.  Boolean flags are carried verbatim. -/
structure PhysicsParams where
  wavelength : ℝ
  slitSeparation : ℝ
  slitWidth : ℝ
  screenDistance : ℝ
  amplitude : ℝ
  showWaves : Bool
  particleMode : Bool
  isPaused : Bool
  waveSpeed : ℝ
  particleRate : ℝ
  timeScale : ℝ

/-- `getInterferenceIntensity` from src/hooks/useParticleSystem.ts lines
36-60 (the copy in src/components/DoubleSlitExperiment.tsx lines 6-30 is
textually identical).  `Math.pow x 2` is written `x ^ 2`, `Math.PI` is `π`,
and the `beta === 0.0` test is the explicit branch of the source. -/
noncomputable def getInterferenceIntensity (posOnScreen : ℝ) (params : PhysicsParams) : ℝ :=
  let k := 2 * Real.pi / params.wavelength
  let D := params.screenDistance
  let d := params.slitSeparation
  let w := params.slitWidth
  if D ≤ 0 ∨ params.wavelength ≤ 0 then 0
  else
    let z := posOnScreen
    let pathDiff := d * z / D
    let phi := k * pathDiff
    let interference := Real.cos (phi / 2) ^ 2
    let beta := k * w * z / D
    let sinc_beta_half := if beta = 0 then 1 else Real.sin (beta / 2) / (beta / 2)
    let diffraction := sinc_beta_half ^ 2
    interference * diffraction

/-- Validity of a parameter set: every numeric field inside the bounds of the
table in spec §6 (`PARAM_BOUNDS` of src/contexts/SimulationContext.tsx), and
the physical constraint slitWidth < slitSeparation. -/
def ValidParams (p : PhysicsParams) : Prop :=
  0.1 ≤ p.wavelength ∧ p.wavelength ≤ 2 ∧
  0.5 ≤ p.slitSeparation ∧ p.slitSeparation ≤ 10 ∧
  0.1 ≤ p.slitWidth ∧ p.slitWidth ≤ 5 ∧
  1 ≤ p.screenDistance ∧ p.screenDistance ≤ 20 ∧
  0.1 ≤ p.amplitude ∧ p.amplitude ≤ 1 ∧
  0.1 ≤ p.waveSpeed ∧ p.waveSpeed ≤ 10 ∧
  10 ≤ p.particleRate ∧ p.particleRate ≤ 1000 ∧
  0.1 ≤ p.timeScale ∧ p.timeScale ≤ 5 ∧
  p.slitWidth < p.slitSeparation

/-- The default parameter values of `SimulationProvider`
(src/contexts/SimulationContext.tsx lines 120-132) and of
`DoubleSlitExperiment` (src/components/DoubleSlitExperiment.tsx lines 33-45). -/
noncomputable def defaultParams : PhysicsParams :=
  { wavelength := 0.5
    slitSeparation := 2.0
    slitWidth := 0.3
    screenDistance := 10.0
    amplitude := 0.5
    showWaves := true
    particleMode := false
    isPaused := false
    waveSpeed := 2.0
    particleRate := 100
    timeScale := 1.0 }

/-- The square of the sinc factor is at most 1: `(sin t / t) ^ 2 ≤ 1`. -/
lemma sinc_sq_le_one (t : ℝ) (ht : t ≠ 0) : (Real.sin t / t) ^ 2 ≤ 1 := by
  have ht2 : 0 < t ^ 2 := by positivity
  rw [div_pow, div_le_one ht2]
  exact Real.sin_sq_le_sq

/-- C1: for every screen position and every parameter value the intensity lies
in the closed interval `[0, 1]`: the interference factor `cos² (φ/2)` and the
diffraction factor `sinc² (β/2)` each lie in `[0, 1]`, so their product does. -/
theorem intensity_mem_Icc (z : ℝ) (p : PhysicsParams) :
    0 ≤ getInterferenceIntensity z p ∧ getInterferenceIntensity z p ≤ 1 := by
  unfold getInterferenceIntensity
  by_cases hg : p.screenDistance ≤ 0 ∨ p.wavelength ≤ 0
  · simp only [hg, if_true]
    exact ⟨le_refl 0, zero_le_one⟩
  · simp only [hg, if_false]
    set k := 2 * Real.pi / p.wavelength
    set phi := k * (p.slitSeparation * z / p.screenDistance) with hphi
    set beta := k * p.slitWidth * z / p.screenDistance with hbeta
    have hcos0 : (0:ℝ) ≤ Real.cos (phi / 2) ^ 2 := sq_nonneg _
    have hcos1 : Real.cos (phi / 2) ^ 2 ≤ 1 := Real.cos_sq_le_one _
    have hsinc0 : (0:ℝ) ≤ (if beta = 0 then 1 else Real.sin (beta / 2) / (beta / 2)) ^ 2 :=
      sq_nonneg _
    have hsinc1 : (if beta = 0 then 1 else Real.sin (beta / 2) / (beta / 2)) ^ 2 ≤ 1 := by
      by_cases hb : beta = 0
      · simp [hb]
      · simp only [hb, if_false]
        exact sinc_sq_le_one (beta / 2) (by simpa using hb)
    constructor
    · exact mul_nonneg hcos0 hsinc0
    · exact mul_le_one₀ hcos1 hsinc0 hsinc1

/-- Unfolding lemma: on non-degenerate geometry the intensity is the product
of the interference and diffraction factors. -/
lemma intensity_eq_of_pos (z : ℝ) (p : PhysicsParams)
    (hD : 0 < p.screenDistance) (hl : 0 < p.wavelength) :
    getInterferenceIntensity z p =
      Real.cos (2 * Real.pi / p.wavelength * (p.slitSeparation * z / p.screenDistance) / 2) ^ 2 *
      (if 2 * Real.pi / p.wavelength * p.slitWidth * z / p.screenDistance = 0 then (1:ℝ)
       else Real.sin (2 * Real.pi / p.wavelength * p.slitWidth * z / p.screenDistance / 2) /
            (2 * Real.pi / p.wavelength * p.slitWidth * z / p.screenDistance / 2)) ^ 2 := by
  have hg : ¬ (p.screenDistance ≤ 0 ∨ p.wavelength ≤ 0) := by
    push_neg
    exact ⟨hD, hl⟩
  simp only [getInterferenceIntensity, hg, if_false]

/-- C2: for every valid parameter set the intensity at the centre of the
screen is exactly 1 (the `β = 0` branch makes the diffraction factor 1), and
the intensity is an even function of the screen position. -/
theorem intensity_central_max_and_even (p : PhysicsParams) (hp : ValidParams p) :
    getInterferenceIntensity 0 p = 1 ∧
    ∀ z : ℝ, getInterferenceIntensity z p = getInterferenceIntensity (-z) p := by
  obtain ⟨hw1, _, hd1, _, hsw1, _, hD1, _⟩ := hp
  have hD : 0 < p.screenDistance := by linarith
  have hl : 0 < p.wavelength := by linarith
  constructor
  · rw [intensity_eq_of_pos 0 p hD hl]
    norm_num
  · intro z
    rw [intensity_eq_of_pos z p hD hl, intensity_eq_of_pos (-z) p hD hl]
    have hphi : 2 * Real.pi / p.wavelength * (p.slitSeparation * -z / p.screenDistance) / 2 =
        -(2 * Real.pi / p.wavelength * (p.slitSeparation * z / p.screenDistance) / 2) := by
      ring
    have hbeta : 2 * Real.pi / p.wavelength * p.slitWidth * -z / p.screenDistance =
        -(2 * Real.pi / p.wavelength * p.slitWidth * z / p.screenDistance) := by
      ring
    rw [hphi, hbeta, Real.cos_neg]
    simp only [neg_eq_zero]
    by_cases hb : 2 * Real.pi / p.wavelength * p.slitWidth * z / p.screenDistance = 0
    · rw [if_pos hb, if_pos hb]
    · rw [if_neg hb, if_neg hb]
      have h2 : -(2 * Real.pi / p.wavelength * p.slitWidth * z / p.screenDistance) / 2 =
          -(2 * Real.pi / p.wavelength * p.slitWidth * z / p.screenDistance / 2) := by
        ring
      rw [h2, Real.sin_neg, neg_div_neg_eq]

/-- Evaluation of the intensity at the first-order interference maximum
`z₁ = λ·D/d`: the interference factor is `cos² π = 1` there and only the
diffraction envelope `sinc² (π·w/d)` remains. -/
lemma intensity_at_first_max (p : PhysicsParams)
    (hl : 0 < p.wavelength) (hD : 0 < p.screenDistance)
    (hd : 0 < p.slitSeparation) (hw : 0 < p.slitWidth) :
    getInterferenceIntensity (p.wavelength * p.screenDistance / p.slitSeparation) p =
      (Real.sin (Real.pi * p.slitWidth / p.slitSeparation) /
        (Real.pi * p.slitWidth / p.slitSeparation)) ^ 2 := by
  rw [intensity_eq_of_pos _ p hD hl]
  have hphi : 2 * Real.pi / p.wavelength *
      (p.slitSeparation * (p.wavelength * p.screenDistance / p.slitSeparation) /
        p.screenDistance) / 2 = Real.pi := by
    field_simp
  have hbeta : 2 * Real.pi / p.wavelength * p.slitWidth *
      (p.wavelength * p.screenDistance / p.slitSeparation) / p.screenDistance =
      2 * (Real.pi * p.slitWidth / p.slitSeparation) := by
    field_simp
    ring
  have hbne : 2 * (Real.pi * p.slitWidth / p.slitSeparation) ≠ 0 := by
    have : 0 < Real.pi * p.slitWidth / p.slitSeparation := by positivity
    positivity
  rw [hphi, hbeta, if_neg hbne, Real.cos_pi]
  have h2 : 2 * (Real.pi * p.slitWidth / p.slitSeparation) / 2 =
      Real.pi * p.slitWidth / p.slitSeparation := by
    ring
  rw [h2]
  norm_num

/-- Parameter set refuting claim C3: all fields valid (slitWidth 4 <
slitSeparation 5), but the slit-width/separation ratio 0.8 puts the first
interference maximum deep inside the diffraction envelope's decay. -/
noncomputable def cexParamsC3 : PhysicsParams :=
  { wavelength := 1
    slitSeparation := 5
    slitWidth := 4
    screenDistance := 10
    amplitude := 0.5
    showWaves := true
    particleMode := false
    isPaused := false
    waveSpeed := 2
    particleRate := 100
    timeScale := 1 }

/-- Counterexample to C3: at the valid parameter set `cexParamsC3` the
intensity at the first-order maximum `z = λD/d = 2` is below 1/2 (the
diffraction envelope `sinc² (0.8·π)` is smaller than `1/(1.6·π)² < 1/23`). -/
theorem intensity_first_max_not_gt_half :
    ValidParams cexParamsC3 ∧
    ¬ (1/2 < getInterferenceIntensity
        (cexParamsC3.wavelength * cexParamsC3.screenDistance / cexParamsC3.slitSeparation)
        cexParamsC3) := by
  constructor
  · unfold ValidParams cexParamsC3
    norm_num
  · have hw : cexParamsC3.wavelength = (1:ℝ) := rfl
    have hd : cexParamsC3.slitSeparation = (5:ℝ) := rfl
    have hsw : cexParamsC3.slitWidth = (4:ℝ) := rfl
    have hD : cexParamsC3.screenDistance = (10:ℝ) := rfl
    have h := intensity_at_first_max cexParamsC3 (by rw [hw]; norm_num)
      (by rw [hD]; norm_num) (by rw [hd]; norm_num) (by rw [hsw]; norm_num)
    rw [h, hsw, hd]
    set x := Real.pi * 4 / 5 with hx
    have hxgt : (2.4:ℝ) ≤ x := by
      rw [hx]
      nlinarith [Real.pi_gt_three]
    have hx0 : (0:ℝ) < x := by linarith
    have hsin : Real.sin x ^ 2 ≤ 1 := Real.sin_sq_le_one x
    rw [not_lt, div_pow, div_le_iff₀ (by positivity)]
    nlinarith [hsin, hxgt, hx0]

set_option maxHeartbeats 1000000 in
/-- C3 (amended): if additionally the slit width is at most 0.3 of the slit
separation, the intensity at the first-order maximum exceeds 1/2. -/
theorem intensity_first_max_gt_half (p : PhysicsParams) (hp : ValidParams p)
    (hr : p.slitWidth ≤ 0.3 * p.slitSeparation) :
    1/2 < getInterferenceIntensity
      (p.wavelength * p.screenDistance / p.slitSeparation) p := by
  obtain ⟨hw1, _, hd1, _, hsw1, _, hD1, _⟩ := hp
  have hl : 0 < p.wavelength := by linarith
  have hD : 0 < p.screenDistance := by linarith
  have hd : 0 < p.slitSeparation := by linarith
  have hw : 0 < p.slitWidth := by linarith
  rw [intensity_at_first_max p hl hD hd hw]
  set x := Real.pi * p.slitWidth / p.slitSeparation with hx
  have hx0 : 0 < x := by positivity
  have hpi : Real.pi < 3.15 := Real.pi_lt_d2
  have hxle : x ≤ 0.95 := by
    rw [hx, div_le_iff₀ hd]
    nlinarith [Real.pi_gt_three]
  have hx2 : x ^ 2 ≤ 0.9025 := by nlinarith [hx0, hxle]
  have hx3 : x ^ 3 ≤ 0.9025 * x := by
    nlinarith [mul_le_mul_of_nonneg_left hx2 hx0.le]
  have hsin : x - x ^ 3 / 4 < Real.sin x :=
    Real.sin_gt_sub_cube hx0 (by linarith)
  have hb0 : 0 < x - x ^ 3 / 4 := by nlinarith [hx3, hx0]
  have hs2 : (x - x ^ 3 / 4) ^ 2 < Real.sin x ^ 2 :=
    pow_lt_pow_left₀ hsin hb0.le (by norm_num)
  have hx4 : x ^ 4 ≤ 0.9025 * x ^ 2 := by
    nlinarith [mul_le_mul_of_nonneg_left hx2 (sq_nonneg x)]
  have hkey : 1/2 * x ^ 2 < (x - x ^ 3 / 4) ^ 2 := by
    nlinarith [hx4, mul_pos hx0 hx0, sq_nonneg (x ^ 3)]
  rw [div_pow, lt_div_iff₀ (by positivity : (0:ℝ) < x ^ 2)]
  nlinarith

/-- C4: degenerate optical geometry (non-positive screen distance or
wavelength) makes the intensity exactly 0 at every screen position; the
guard returns before the interference and diffraction terms are used. -/
theorem intensity_degenerate_zero (z : ℝ) (p : PhysicsParams)
    (h : p.screenDistance ≤ 0 ∨ p.wavelength ≤ 0) :
    getInterferenceIntensity z p = 0 := by
  simp only [getInterferenceIntensity, h, if_true]

/-- Degenerate parameter set: a negative screen distance. -/
noncomputable def degenerateParams : PhysicsParams :=
  { defaultParams with screenDistance := -1 }

/-- Witness for C4 at a concrete degenerate parameter set. -/
theorem intensity_degenerate_zero_witness :
    getInterferenceIntensity 3 degenerateParams = 0 :=
  intensity_degenerate_zero 3 degenerateParams
    (Or.inl (by norm_num [degenerateParams, defaultParams]))

/-- Witness for C2 at the default parameter set. -/
theorem intensity_central_max_and_even_witness :
    getInterferenceIntensity 0 defaultParams = 1 ∧
    ∀ z : ℝ, getInterferenceIntensity z defaultParams =
      getInterferenceIntensity (-z) defaultParams :=
  intensity_central_max_and_even defaultParams
    (by unfold ValidParams defaultParams; norm_num)

/-- Witness for the amended C3 at the default parameter set
(slitWidth 0.3 ≤ 0.3 × slitSeparation 2.0). -/
theorem intensity_first_max_gt_half_witness :
    1/2 < getInterferenceIntensity
      (defaultParams.wavelength * defaultParams.screenDistance / defaultParams.slitSeparation)
      defaultParams :=
  intensity_first_max_gt_half defaultParams
    (by unfold ValidParams defaultParams; norm_num)
    (by norm_num [defaultParams])

/-! ### Parameter validator (src/contexts/SimulationContext.tsx)

The validator's behaviour on NaN and infinite inputs is part of claims
C5-C7, so JavaScript numbers are modelled by `JNum`: a rational payload
plus NaN and the two infinities, with IEEE comparison semantics (any
comparison involving NaN is false). -/

/-- Model of a JavaScript number: finite (rational payload), NaN, or ±∞. -/
inductive JNum where
  | nan : JNum
  | posInf : JNum
  | negInf : JNum
  | fin : ℚ → JNum
deriving DecidableEq

namespace JNum

/-- `isNaN(v)`. -/
def isNaN : JNum → Bool
  | .nan => true
  | _ => false

/-- `isFinite(v)` — false for NaN and for the infinities. -/
def isFin : JNum → Bool
  | .fin _ => true
  | _ => false

/-- Rational payload of a finite value (0 for the non-finite ones). -/
def qval : JNum → ℚ
  | .fin x => x
  | _ => 0

/-- The strict `>` comparison of JavaScript: false whenever either side is
NaN, and `-∞ < finite < +∞`. -/
def jgt : JNum → JNum → Bool
  | .nan, _ => false
  | _, .nan => false
  | .posInf, .posInf => false
  | .posInf, _ => true
  | _, .posInf => false
  | .negInf, _ => false
  | .fin _, .negInf => true
  | .fin a, .fin b => decide (b < a)

/-- Multiplication by the literal `0.8` with IEEE sign/infinity propagation
(NaN stays NaN, `±∞ * 0.8 = ±∞`). -/
def mul08 : JNum → JNum
  | .nan => .nan
  | .posInf => .posInf
  | .negInf => .negInf
  | .fin x => .fin (x * 0.8)

end JNum

/-- The `PhysicsParams` record as the validator sees it: JavaScript numbers
(possibly NaN or infinite) plus the three boolean flags. -/
structure JParams where
  wavelength : JNum
  slitSeparation : JNum
  slitWidth : JNum
  screenDistance : JNum
  amplitude : JNum
  showWaves : Bool
  particleMode : Bool
  isPaused : Bool
  waveSpeed : JNum
  particleRate : JNum
  timeScale : JNum
deriving DecidableEq

/-- An entry of `PARAM_BOUNDS` (src/contexts/SimulationContext.tsx lines
31-40). -/
structure Bounds where
  min : ℚ
  max : ℚ
deriving DecidableEq

def wavelengthBounds : Bounds := ⟨0.1, 2⟩
def slitSeparationBounds : Bounds := ⟨0.5, 10⟩
def slitWidthBounds : Bounds := ⟨0.1, 5⟩
def screenDistanceBounds : Bounds := ⟨1, 20⟩
def amplitudeBounds : Bounds := ⟨0.1, 1⟩
def waveSpeedBounds : Bounds := ⟨0.1, 10⟩
def particleRateBounds : Bounds := ⟨10, 1000⟩
def timeScaleBounds : Bounds := ⟨0.1, 5⟩

/-- `validateParam` (src/contexts/SimulationContext.tsx lines 51-61): a NaN
or non-finite value is replaced by the midpoint of the field's range,
otherwise the value is clamped with `Math.max(min, Math.min(max, value))`.
The `if (!bounds) return value` guard of the source never fires because
every key passed in is a `PARAM_BOUNDS` key. -/
def validateParam (bounds : Bounds) (value : JNum) : JNum :=
  if value.isNaN || !value.isFin then .fin ((bounds.min + bounds.max) / 2)
  else .fin (max bounds.min (min bounds.max value.qval))

/-- `validatePhysicsConstraints` (src/contexts/SimulationContext.tsx lines
72-90): first the cross-field repair (if `slitWidth > slitSeparation`,
overwrite `slitWidth` with `slitSeparation * 0.8`), then the per-field
clamp of each of the eight numeric fields.  The source's
`Object.keys(PARAM_BOUNDS).forEach` loop applies `validateParam` to each
numeric field independently, so it is written as one record update; the
`typeof validated[paramKey] === 'number'` test is always true for these
eight fields. -/
def validatePhysicsConstraints (params : JParams) : JParams :=
  let slitWidthRepaired :=
    if params.slitWidth.jgt params.slitSeparation
    then params.slitSeparation.mul08
    else params.slitWidth
  { wavelength := validateParam wavelengthBounds params.wavelength
    slitSeparation := validateParam slitSeparationBounds params.slitSeparation
    slitWidth := validateParam slitWidthBounds slitWidthRepaired
    screenDistance := validateParam screenDistanceBounds params.screenDistance
    amplitude := validateParam amplitudeBounds params.amplitude
    showWaves := params.showWaves
    particleMode := params.particleMode
    isPaused := params.isPaused
    waveSpeed := validateParam waveSpeedBounds params.waveSpeed
    particleRate := validateParam particleRateBounds params.particleRate
    timeScale := validateParam timeScaleBounds params.timeScale }

/-- Evaluation of the clamp on a finite value. -/
lemma validateParam_fin (b : Bounds) (z : ℚ) :
    validateParam b (JNum.fin z) = .fin (max b.min (min b.max z)) := rfl

/-- Evaluation of the clamp on NaN: midpoint fallback. -/
lemma validateParam_nan (b : Bounds) :
    validateParam b JNum.nan = .fin ((b.min + b.max) / 2) := rfl

/-- Evaluation of the clamp on +∞: midpoint fallback. -/
lemma validateParam_posInf (b : Bounds) :
    validateParam b JNum.posInf = .fin ((b.min + b.max) / 2) := rfl

/-- Evaluation of the clamp on -∞: midpoint fallback. -/
lemma validateParam_negInf (b : Bounds) :
    validateParam b JNum.negInf = .fin ((b.min + b.max) / 2) := rfl

/-- A field value is finite and inside its documented bounds. -/
def InBoundsJ (b : Bounds) (v : JNum) : Prop :=
  v.isFin = true ∧ b.min ≤ v.qval ∧ v.qval ≤ b.max

/-- All eight numeric fields are finite and inside their §6 bounds. -/
def JBounded (p : JParams) : Prop :=
  InBoundsJ wavelengthBounds p.wavelength ∧
  InBoundsJ slitSeparationBounds p.slitSeparation ∧
  InBoundsJ slitWidthBounds p.slitWidth ∧
  InBoundsJ screenDistanceBounds p.screenDistance ∧
  InBoundsJ amplitudeBounds p.amplitude ∧
  InBoundsJ waveSpeedBounds p.waveSpeed ∧
  InBoundsJ particleRateBounds p.particleRate ∧
  InBoundsJ timeScaleBounds p.timeScale

instance (b : Bounds) (v : JNum) : Decidable (InBoundsJ b v) := by
  unfold InBoundsJ
  infer_instance

instance (p : JParams) : Decidable (JBounded p) := by
  unfold JBounded
  infer_instance

/-- The per-field clamp always lands inside the field's bounds. -/
lemma validateParam_inBounds (b : Bounds) (hb : b.min ≤ b.max) (v : JNum) :
    InBoundsJ b (validateParam b v) := by
  unfold validateParam InBoundsJ
  by_cases h : (v.isNaN || !v.isFin) = true
  · rw [if_pos h]
    refine ⟨rfl, ?_, ?_⟩ <;> simp only [JNum.qval] <;> linarith
  · rw [if_neg h]
    refine ⟨rfl, ?_, ?_⟩ <;> simp only [JNum.qval]
    · exact le_max_left _ _
    · exact max_le hb (min_le_left _ _)

/-- Comparison of the slit-width clamp with the slit-separation clamp on
order-related payloads. -/
lemma clampW_le_clampS {a b : ℚ} (h : a ≤ b) :
    max (0.1:ℚ) (min 5 a) ≤ max (0.5:ℚ) (min 10 b) :=
  max_le ((by norm_num : (0.1:ℚ) ≤ 0.5).trans (le_max_left _ _))
    ((min_le_min (by norm_num) h).trans (le_max_right _ _))

/-- The slit-width clamp never exceeds 5, hence never exceeds the
slit-separation midpoint fallback 5.25. -/
lemma clampW_le_midS (a : ℚ) : max (0.1:ℚ) (min 5 a) ≤ ((0.5:ℚ) + 10) / 2 :=
  max_le (by norm_num) ((min_le_left _ _).trans (by norm_num))

/-- After the repair-then-clamp pipeline, a finite input `slitWidth` ends up
no larger than the clamped `slitSeparation`. -/
lemma slit_le_aux (w s : JNum) (hf : w.isFin = true) :
    (validateParam slitWidthBounds (if w.jgt s then s.mul08 else w)).qval ≤
    (validateParam slitSeparationBounds s).qval := by
  cases w with
  | nan => simp [JNum.isFin] at hf
  | posInf => simp [JNum.isFin] at hf
  | negInf => simp [JNum.isFin] at hf
  | fin x =>
    cases s with
    | nan =>
      simp only [JNum.jgt, Bool.false_eq_true, if_false, validateParam_fin,
        validateParam_nan, JNum.qval, slitWidthBounds, slitSeparationBounds]
      exact clampW_le_midS x
    | posInf =>
      simp only [JNum.jgt, Bool.false_eq_true, if_false, validateParam_fin,
        validateParam_posInf, JNum.qval, slitWidthBounds, slitSeparationBounds]
      exact clampW_le_midS x
    | negInf =>
      simp only [JNum.jgt, if_true, JNum.mul08, validateParam_fin,
        validateParam_negInf, JNum.qval, slitWidthBounds, slitSeparationBounds]
      norm_num
    | fin y =>
      by_cases hxy : y < x
      · have hc : (JNum.fin x).jgt (JNum.fin y) = true := by
          simp [JNum.jgt, hxy]
        rw [hc, if_pos rfl]
        simp only [JNum.mul08, validateParam_fin, JNum.qval,
          slitWidthBounds, slitSeparationBounds]
        rcases le_total y 0 with hy | hy
        · have h1 : min (5:ℚ) (y * 0.8) ≤ 0.5 := (min_le_right _ _).trans (by linarith)
          have h2 : (0.5:ℚ) ≤ max 0.5 (min 10 y) := le_max_left _ _
          exact max_le ((by norm_num : (0.1:ℚ) ≤ 0.5).trans h2) (h1.trans h2)
        · exact clampW_le_clampS (by linarith)
      · have hc : (JNum.fin x).jgt (JNum.fin y) = false := by
          simp [JNum.jgt, hxy]
        rw [hc]
        simp only [Bool.false_eq_true, if_false, validateParam_fin, JNum.qval,
          slitWidthBounds, slitSeparationBounds]
        exact clampW_le_clampS (not_lt.mp hxy)

/-- All eight numeric fields of the validator output are finite and inside
their bounds. -/
lemma validate_JBounded (p : JParams) : JBounded (validatePhysicsConstraints p) :=
  ⟨validateParam_inBounds _ (by norm_num [wavelengthBounds]) _,
    validateParam_inBounds _ (by norm_num [slitSeparationBounds]) _,
    validateParam_inBounds _ (by norm_num [slitWidthBounds]) _,
    validateParam_inBounds _ (by norm_num [screenDistanceBounds]) _,
    validateParam_inBounds _ (by norm_num [amplitudeBounds]) _,
    validateParam_inBounds _ (by norm_num [waveSpeedBounds]) _,
    validateParam_inBounds _ (by norm_num [particleRateBounds]) _,
    validateParam_inBounds _ (by norm_num [timeScaleBounds]) _⟩

/-- When the input `slitWidth` is finite, the validated `slitWidth` is at
most the validated `slitSeparation`. -/
lemma validate_slit_le (p : JParams) (hf : p.slitWidth.isFin = true) :
    (validatePhysicsConstraints p).slitWidth.qval ≤
      (validatePhysicsConstraints p).slitSeparation.qval :=
  slit_le_aux p.slitWidth p.slitSeparation hf

/-- C5 (amended): the validator output always has all eight numeric fields
finite and inside the §6 bounds, and whenever the input `slitWidth` is
finite the output satisfies `slitWidth ≤ slitSeparation` (the strict
inequality claimed by the spec can fail: equal inputs are not repaired,
and a NaN `slitWidth` is replaced by a midpoint that may exceed
`slitSeparation`). -/
theorem validate_inBounds_and_slit_le (p : JParams) :
    JBounded (validatePhysicsConstraints p) ∧
    (p.slitWidth.isFin = true →
      (validatePhysicsConstraints p).slitWidth.qval ≤
      (validatePhysicsConstraints p).slitSeparation.qval) :=
  ⟨validate_JBounded p, validate_slit_le p⟩

/-- The validator-level parameter defaults of `SimulationProvider`, as
JavaScript numbers. -/
def jDefaults : JParams :=
  { wavelength := .fin 0.5
    slitSeparation := .fin 2.0
    slitWidth := .fin 0.3
    screenDistance := .fin 10.0
    amplitude := .fin 0.5
    showWaves := true
    particleMode := false
    isPaused := false
    waveSpeed := .fin 2.0
    particleRate := .fin 100
    timeScale := .fin 1.0 }

/-- Input with `slitWidth = slitSeparation = 3`: in bounds, but the strict
`>` test of the repair does not fire. -/
def pSlitEq : JParams := { jDefaults with slitWidth := .fin 3, slitSeparation := .fin 3 }

/-- Input with a NaN `slitWidth` and `slitSeparation = 2`: the NaN is
replaced by the midpoint 2.55 of the slit-width range, which exceeds 2. -/
def pSlitNaN : JParams := { jDefaults with slitWidth := .nan, slitSeparation := .fin 2 }

/-- Counterexample to C5: on `pSlitEq` the validated output has
`slitWidth = slitSeparation` (not strictly less), and on `pSlitNaN` the
validated output even has `slitWidth > slitSeparation`. -/
theorem validate_slit_strict_cex :
    ¬ ((validatePhysicsConstraints pSlitEq).slitWidth.qval <
       (validatePhysicsConstraints pSlitEq).slitSeparation.qval) ∧
    (validatePhysicsConstraints pSlitNaN).slitSeparation.qval <
      (validatePhysicsConstraints pSlitNaN).slitWidth.qval := by
  constructor
  · norm_num [pSlitEq, jDefaults, validatePhysicsConstraints, JNum.jgt, JNum.mul08,
      validateParam_fin, validateParam_nan, JNum.qval, slitWidthBounds,
      slitSeparationBounds, min_def, max_def]
  · norm_num [pSlitNaN, jDefaults, validatePhysicsConstraints, JNum.jgt, JNum.mul08,
      validateParam_fin, validateParam_nan, JNum.qval, slitWidthBounds,
      slitSeparationBounds, min_def, max_def]

/-- Witness for C5 at the default parameter values. -/
theorem validate_inBounds_and_slit_le_witness :
    JBounded (validatePhysicsConstraints jDefaults) ∧
    (validatePhysicsConstraints jDefaults).slitWidth.qval ≤
      (validatePhysicsConstraints jDefaults).slitSeparation.qval :=
  ⟨(validate_inBounds_and_slit_le jDefaults).1,
   (validate_inBounds_and_slit_le jDefaults).2 rfl⟩

/-- Input with `slitWidth = slitSeparation = 4`, in the claimed scope of the
`≥` repair rule of C6. -/
def pSlitEq4 : JParams := { jDefaults with slitWidth := .fin 4, slitSeparation := .fin 4 }

/-- Input with `slitWidth = 20 > slitSeparation = 15`, both above their
field maxima, exposing the repair-before-clamp order of the source. -/
def pSlitBig : JParams := { jDefaults with slitWidth := .fin 20, slitSeparation := .fin 15 }

/-- Counterexample to C6: with equal slit fields (4, 4) no repair fires, so
the output `slitWidth` is 4 rather than the claimed 0.8 × 4; and with
(20, 15) the repair runs on the unclamped separation, producing
`slitWidth = 5` rather than the claimed 0.8 × 10 = 8. -/
theorem validate_repair_eq_cex :
    (validatePhysicsConstraints pSlitEq4).slitWidth.qval ≠
      0.8 * (validatePhysicsConstraints pSlitEq4).slitSeparation.qval ∧
    (validatePhysicsConstraints pSlitBig).slitWidth.qval ≠
      0.8 * (validatePhysicsConstraints pSlitBig).slitSeparation.qval := by
  constructor
  · norm_num [pSlitEq4, jDefaults, validatePhysicsConstraints, JNum.jgt, JNum.mul08,
      validateParam_fin, JNum.qval, slitWidthBounds, slitSeparationBounds,
      min_def, max_def]
  · norm_num [pSlitBig, jDefaults, validatePhysicsConstraints, JNum.jgt, JNum.mul08,
      validateParam_fin, JNum.qval, slitWidthBounds, slitSeparationBounds,
      min_def, max_def]

/-- C6 (amended): when the JavaScript comparison `slitWidth > slitSeparation`
holds on the raw input (so in particular neither field is NaN) and
`slitSeparation` is finite, the validator first overwrites `slitWidth` with
`slitSeparation * 0.8` and only then applies the per-field clamp, so the
output `slitWidth` is the clamp of 0.8 × the unclamped input separation. -/
theorem validate_repair_clamped (p : JParams)
    (hgt : p.slitWidth.jgt p.slitSeparation = true)
    (hf : p.slitSeparation.isFin = true) :
    (validatePhysicsConstraints p).slitWidth =
      .fin (max slitWidthBounds.min
        (min slitWidthBounds.max (p.slitSeparation.qval * 0.8))) := by
  cases hs : p.slitSeparation with
  | nan => simp [JNum.isFin, hs] at hf
  | posInf => simp [JNum.isFin, hs] at hf
  | negInf => simp [JNum.isFin, hs] at hf
  | fin y =>
    show validateParam slitWidthBounds
        (if p.slitWidth.jgt p.slitSeparation then p.slitSeparation.mul08 else p.slitWidth) = _
    rw [hgt, if_pos rfl, hs]
    simp [validateParam, JNum.mul08, JNum.isNaN, JNum.isFin, JNum.qval]

/-- Input with `slitWidth = 8 > slitSeparation = 6`, used as the concrete
witness input for the amended C6. -/
def pRepair86 : JParams := { jDefaults with slitWidth := .fin 8, slitSeparation := .fin 6 }

/-- Witness for the amended C6 at a concrete input (slitWidth 8 >
slitSeparation 6). -/
theorem validate_repair_clamped_witness :
    (validatePhysicsConstraints pRepair86).slitWidth =
      .fin (max slitWidthBounds.min
        (min slitWidthBounds.max (pRepair86.slitSeparation.qval * 0.8))) :=
  validate_repair_clamped pRepair86 (by decide) (by decide)

/-- A clamp applied to its own output is the identity. -/
lemma validateParam_idem (b : Bounds) (hb : b.min ≤ b.max) (v : JNum) :
    validateParam b (validateParam b v) = validateParam b v := by
  obtain ⟨hfin, h1, h2⟩ := validateParam_inBounds b hb v
  cases hv : validateParam b v with
  | nan => rw [hv] at hfin; simp [JNum.isFin] at hfin
  | posInf => rw [hv] at hfin; simp [JNum.isFin] at hfin
  | negInf => rw [hv] at hfin; simp [JNum.isFin] at hfin
  | fin x =>
    rw [hv] at h1 h2
    simp only [JNum.qval] at h1 h2
    show (if (JNum.fin x).isNaN || !(JNum.fin x).isFin then _ else _) = _
    simp only [JNum.isNaN, JNum.isFin, Bool.not_true, Bool.or_false, if_false,
      Bool.false_eq_true]
    rw [JNum.qval, min_eq_right h2, max_eq_right h1]

/-- When the cross-field repair does not fire, the validator is the
per-field clamp alone. -/
lemma validate_eq_of_no_repair (q : JParams)
    (h : q.slitWidth.jgt q.slitSeparation = false) :
    validatePhysicsConstraints q =
      { wavelength := validateParam wavelengthBounds q.wavelength
        slitSeparation := validateParam slitSeparationBounds q.slitSeparation
        slitWidth := validateParam slitWidthBounds q.slitWidth
        screenDistance := validateParam screenDistanceBounds q.screenDistance
        amplitude := validateParam amplitudeBounds q.amplitude
        showWaves := q.showWaves
        particleMode := q.particleMode
        isPaused := q.isPaused
        waveSpeed := validateParam waveSpeedBounds q.waveSpeed
        particleRate := validateParam particleRateBounds q.particleRate
        timeScale := validateParam timeScaleBounds q.timeScale } := by
  unfold validatePhysicsConstraints
  rw [h]
  simp

/-- C7 (amended): the validator is idempotent on every input whose
`slitWidth` field is finite (not NaN and not ±∞).  (With a non-finite
`slitWidth` the midpoint fallback can produce `slitWidth > slitSeparation`,
which a second application then repairs, so full idempotence fails.) -/
theorem validate_idempotent_of_finite_slitWidth (p : JParams)
    (hf : p.slitWidth.isFin = true) :
    validatePhysicsConstraints (validatePhysicsConstraints p) =
      validatePhysicsConstraints p := by
  have hle : (validatePhysicsConstraints p).slitWidth.qval ≤
      (validatePhysicsConstraints p).slitSeparation.qval :=
    validate_slit_le p hf
  have hb := validate_JBounded p
  have hfw : (validatePhysicsConstraints p).slitWidth.isFin = true := hb.2.2.1.1
  have hfs : (validatePhysicsConstraints p).slitSeparation.isFin = true := hb.2.1.1
  have hjgt : (validatePhysicsConstraints p).slitWidth.jgt
      (validatePhysicsConstraints p).slitSeparation = false := by
    cases hw : (validatePhysicsConstraints p).slitWidth with
    | nan => rw [hw] at hfw; simp [JNum.isFin] at hfw
    | posInf => rw [hw] at hfw; simp [JNum.isFin] at hfw
    | negInf => rw [hw] at hfw; simp [JNum.isFin] at hfw
    | fin a =>
      cases hs : (validatePhysicsConstraints p).slitSeparation with
      | nan => rw [hs] at hfs; simp [JNum.isFin] at hfs
      | posInf => rw [hs] at hfs; simp [JNum.isFin] at hfs
      | negInf => rw [hs] at hfs; simp [JNum.isFin] at hfs
      | fin b =>
        rw [hw, hs] at hle
        simp only [JNum.qval] at hle
        simp [JNum.jgt, not_lt.mpr hle]
  rw [validate_eq_of_no_repair _ hjgt]
  have e1 : validateParam wavelengthBounds (validatePhysicsConstraints p).wavelength =
      (validatePhysicsConstraints p).wavelength :=
    validateParam_idem _ (by norm_num [wavelengthBounds]) p.wavelength
  have e2 : validateParam slitSeparationBounds (validatePhysicsConstraints p).slitSeparation =
      (validatePhysicsConstraints p).slitSeparation :=
    validateParam_idem _ (by norm_num [slitSeparationBounds]) p.slitSeparation
  have e3 : validateParam slitWidthBounds (validatePhysicsConstraints p).slitWidth =
      (validatePhysicsConstraints p).slitWidth :=
    validateParam_idem _ (by norm_num [slitWidthBounds]) _
  have e4 : validateParam screenDistanceBounds (validatePhysicsConstraints p).screenDistance =
      (validatePhysicsConstraints p).screenDistance :=
    validateParam_idem _ (by norm_num [screenDistanceBounds]) p.screenDistance
  have e5 : validateParam amplitudeBounds (validatePhysicsConstraints p).amplitude =
      (validatePhysicsConstraints p).amplitude :=
    validateParam_idem _ (by norm_num [amplitudeBounds]) p.amplitude
  have e6 : validateParam waveSpeedBounds (validatePhysicsConstraints p).waveSpeed =
      (validatePhysicsConstraints p).waveSpeed :=
    validateParam_idem _ (by norm_num [waveSpeedBounds]) p.waveSpeed
  have e7 : validateParam particleRateBounds (validatePhysicsConstraints p).particleRate =
      (validatePhysicsConstraints p).particleRate :=
    validateParam_idem _ (by norm_num [particleRateBounds]) p.particleRate
  have e8 : validateParam timeScaleBounds (validatePhysicsConstraints p).timeScale =
      (validatePhysicsConstraints p).timeScale :=
    validateParam_idem _ (by norm_num [timeScaleBounds]) p.timeScale
  rw [e1, e2, e3, e4, e5, e6, e7, e8]

/-- Counterexample to C7: on the NaN-slit-width input `pSlitNaN` the first
validation produces `slitWidth = 2.55 > slitSeparation = 2`, so a second
validation repairs it again and the results differ. -/
theorem validate_not_idempotent_cex :
    validatePhysicsConstraints (validatePhysicsConstraints pSlitNaN) ≠
      validatePhysicsConstraints pSlitNaN := by
  intro h
  have h2 := congrArg JParams.slitWidth h
  norm_num [pSlitNaN, jDefaults, validatePhysicsConstraints, JNum.jgt, JNum.mul08,
    validateParam_fin, validateParam_nan, JNum.qval, slitWidthBounds,
    slitSeparationBounds, min_def, max_def] at h2

/-- Witness for the amended C7 at the default parameter values. -/
theorem validate_idempotent_witness :
    validatePhysicsConstraints (validatePhysicsConstraints jDefaults) =
      validatePhysicsConstraints jDefaults :=
  validate_idempotent_of_finite_slitWidth jDefaults (by decide)

/-! ### Simulation clock (src/hooks/useAnimationLoop.ts)

The `animate` callback of `useAnimationLoop` (lines 52-79; the animation
loop of src/components/DoubleSlitExperiment.tsx lines 95-122 is textually
identical) mutates `timeRef.current = { simTime, lastTimestamp }`.  It is
embedded as a state transformer on that record; wall-clock timestamps and
the time scale are rationals. -/

/-- The `timeRef.current` record: accumulated simulation time and the last
wall-clock timestamp sample (0 is the cleared-marker sentinel). -/
structure ClockState where
  simTime : ℚ
  lastTimestamp : ℚ
deriving DecidableEq

/-- One invocation of the `animate(timestamp)` callback with the `isPaused`
and `timeScale` configuration it closes over.  While paused the last
timestamp is cleared; otherwise a cleared marker is first re-seeded with
the current timestamp (making the delta of that tick 0), and the
accumulated time advances by `delta × timeScale` with
`delta = (timestamp - lastTimestamp) / 1000`. -/
def animateTick (isPaused : Bool) (timeScale timestamp : ℚ) (s : ClockState) : ClockState :=
  if isPaused then { s with lastTimestamp := 0 }
  else
    let last := if s.lastTimestamp = 0 then timestamp else s.lastTimestamp
    let delta := (timestamp - last) / 1000
    { simTime := s.simTime + delta * timeScale, lastTimestamp := timestamp }

/-- The state installed by `resetTime` (and the initial state of the hook):
time 0, cleared timestamp marker. -/
def resetState : ClockState := ⟨0, 0⟩

/-- A tick record: the configuration read by the callback plus the
wall-clock timestamp the scheduler passes in. -/
structure TickInput where
  isPaused : Bool
  timeScale : ℚ
  timestamp : ℚ
deriving DecidableEq

/-- Folding a sequence of ticks over a starting clock state. -/
def runTicks (s : ClockState) (ticks : List TickInput) : ClockState :=
  ticks.foldl (fun st t => animateTick t.isPaused t.timeScale t.timestamp st) s

/-- One running tick cannot decrease the accumulated time when the time
scale is non-negative and the incoming timestamp is not older than the
stored one (or the marker is cleared). -/
lemma animateTick_mono (sc ts : ℚ) (s : ClockState)
    (h : s.lastTimestamp = 0 ∨ s.lastTimestamp ≤ ts) (hsc : 0 ≤ sc) :
    s.simTime ≤ (animateTick false sc ts s).simTime := by
  unfold animateTick
  by_cases h0 : s.lastTimestamp = 0
  · simp [h0]
  · rcases h with h | h
    · exact absurd h h0
    · simp only [Bool.false_eq_true, if_false, h0]
      have : 0 ≤ (ts - s.lastTimestamp) / 1000 * sc := by
        apply mul_nonneg _ hsc
        apply div_nonneg _ (by norm_num)
        linarith
      linarith

/-- A paused tick clears the timestamp marker and leaves the time alone. -/
lemma animateTick_paused (sc ts : ℚ) (s : ClockState) :
    animateTick true sc ts s = { s with lastTimestamp := 0 } := rfl

/-- After a running tick the stored timestamp is the tick's timestamp. -/
lemma animateTick_run_lastTimestamp (sc ts : ℚ) (s : ClockState) :
    (animateTick false sc ts s).lastTimestamp = ts := rfl

/-- Trace monotonicity: folding any tick sequence with non-decreasing
timestamps and non-negative time scales never decreases the accumulated
time, provided the starting marker is cleared or at most the first
timestamp. -/
lemma runTicks_mono (ticks : List TickInput) (s : ClockState)
    (hinit : s.lastTimestamp = 0 ∨ ∀ t ∈ ticks, s.lastTimestamp ≤ t.timestamp)
    (hsort : List.Sorted (· ≤ ·) (ticks.map TickInput.timestamp))
    (hsc : ∀ t ∈ ticks, 0 ≤ t.timeScale) :
    s.simTime ≤ (runTicks s ticks).simTime := by
  induction ticks generalizing s with
  | nil => exact le_refl _
  | cons t rest ih =>
    rw [List.map_cons, List.sorted_cons] at hsort
    have hstep : s.simTime ≤
        (animateTick t.isPaused t.timeScale t.timestamp s).simTime := by
      cases hp : t.isPaused with
      | true => exact le_refl _
      | false =>
        apply animateTick_mono
        · rcases hinit with h | h
          · exact Or.inl h
          · exact Or.inr (h t (List.mem_cons_self t rest))
        · exact hsc t (List.mem_cons_self t rest)
    have hrest : (animateTick t.isPaused t.timeScale t.timestamp s).simTime ≤
        (runTicks (animateTick t.isPaused t.timeScale t.timestamp s) rest).simTime := by
      apply ih
      · cases hp : t.isPaused with
        | true => exact Or.inl rfl
        | false =>
          right
          intro u hu
          rw [animateTick_run_lastTimestamp]
          exact hsort.1 u.timestamp (List.mem_map_of_mem TickInput.timestamp hu)
      · exact hsort.2
      · exact fun u hu => hsc u (List.mem_cons_of_mem t hu)
    calc s.simTime ≤ _ := hstep
      _ ≤ _ := hrest

/-- C8: clock behaviour over tick sequences with non-decreasing wall-clock
timestamps.  (1) While paused, a tick never changes the accumulated time.
(2) Starting from a cleared (or consistent) marker, a run of ticks with
non-negative time scales never decreases the accumulated time — in
particular this holds with `timeScale > 0` throughout.  (3) The first
running tick directly after a paused tick advances the time by exactly 0,
and (4) so does the first running tick after a reset. -/
theorem clock_tick_properties (sc sc2 ts ts2 : ℚ) (s : ClockState)
    (ticks : List TickInput)
    (hinit : s.lastTimestamp = 0 ∨ ∀ t ∈ ticks, s.lastTimestamp ≤ t.timestamp)
    (hsort : List.Sorted (· ≤ ·) (ticks.map TickInput.timestamp))
    (hsc : ∀ t ∈ ticks, 0 ≤ t.timeScale) :
    (animateTick true sc ts s).simTime = s.simTime ∧
    s.simTime ≤ (runTicks s ticks).simTime ∧
    (animateTick false sc2 ts2 (animateTick true sc ts s)).simTime = s.simTime ∧
    (animateTick false sc2 ts2 resetState).simTime = 0 := by
  refine ⟨rfl, runTicks_mono ticks s hinit hsort hsc, ?_, ?_⟩
  · show (animateTick false sc2 ts2 ⟨s.simTime, 0⟩).simTime = s.simTime
    simp [animateTick]
  · simp [animateTick, resetState]

/-- Witness for C8 on a concrete three-tick trace (run, pause, run). -/
theorem clock_tick_properties_witness :
    (animateTick true 1 50 ⟨7, 10⟩).simTime = 7 ∧
    (7:ℚ) ≤ (runTicks ⟨7, 10⟩
      [⟨false, 2, 20⟩, ⟨true, 2, 30⟩, ⟨false, 2, 40⟩]).simTime ∧
    (animateTick false 1 60 (animateTick true 1 50 ⟨7, 10⟩)).simTime = 7 ∧
    (animateTick false 1 60 resetState).simTime = 0 :=
  clock_tick_properties 1 1 50 60 ⟨7, 10⟩
    [⟨false, 2, 20⟩, ⟨true, 2, 30⟩, ⟨false, 2, 40⟩]
    (Or.inr (by decide))
    (by decide)
    (by decide)

/-! ### Particle system and clock lifecycle
(src/components/DoubleSlitExperiment.tsx)

`DoubleSlitExperiment` colocates the animation clock
(`simulationTime`/`timeRef`) with the particle population
(`allParticles`/`visibleParticles`); its `generateParticles`,
`handleReset` and the two effects are embedded as state transformers on a
`DSState` record.  `Math.random()` draws are modelled by an explicit stream
`rand : ℕ → ℝ` consumed in the order the source calls the generator. -/

/-- The `Particle` record of src/types.ts: a 3D position and the simulation
time at which the particle becomes visible. -/
structure Particle where
  position : ℝ × ℝ × ℝ
  startTime : ℝ

/-- The rejection-sampling loop of `generateParticles`
(src/components/DoubleSlitExperiment.tsx lines 67-78; the hook version in
src/hooks/useParticleSystem.ts lines 94-105 is identical).  `fuel` is the
number of attempts still allowed (`maxAttempts - attempts`), `i` indexes
the next `Math.random()` draw: each attempt consumes a position draw and an
acceptance draw, plus a start-time draw when the candidate is accepted. -/
noncomputable def sampleParticles (params : PhysicsParams) (rand : ℕ → ℝ)
    (totalDuration : ℝ) : ℕ → ℕ → List Particle → List Particle
  | 0, _, acc => acc
  | fuel + 1, i, acc =>
    if acc.length < 500 then
      let z := (rand i - 0.5) * 12
      let probability := getInterferenceIntensity z params
      if rand (i + 1) < probability then
        sampleParticles params rand totalDuration fuel (i + 3)
          (acc ++ [⟨(params.screenDistance, 0, z), rand (i + 2) * totalDuration⟩])
      else
        sampleParticles params rand totalDuration fuel (i + 2) acc
    else acc

/-- The particle list computed by one `generateParticles` call:
`numParticles = 500`, screen width 12, `maxAttempts = 500 * 200`,
`totalDuration = numParticles / particleRate`. -/
noncomputable def generateParticlesList (params : PhysicsParams) (rand : ℕ → ℝ) :
    List Particle :=
  sampleParticles params rand (500 / params.particleRate) (500 * 200) 0 []

/-- The component state of `DoubleSlitExperiment` that the claims are
about: the `simulationTime` React state, the `timeRef.current` pair, and
the two particle lists. -/
structure DSState where
  simTime : ℝ
  refSimTime : ℝ
  lastTimestamp : ℝ
  allParticles : List Particle
  visibleParticles : List Particle

/-- `generateParticles` (src/components/DoubleSlitExperiment.tsx lines
53-81): zeroes `simulationTime` and `timeRef.current`, then installs a
freshly sampled population and clears the visible list. -/
noncomputable def generateParticles (params : PhysicsParams) (rand : ℕ → ℝ)
    (_s : DSState) : DSState :=
  { simTime := 0
    refSimTime := 0
    lastTimestamp := 0
    allParticles := generateParticlesList params rand
    visibleParticles := [] }

/-- The regeneration effect (lines 84-92): regenerate on particle mode,
clear the two particle lists otherwise (the clock is untouched in the
else branch). -/
noncomputable def particleModeEffect (params : PhysicsParams) (rand : ℕ → ℝ)
    (s : DSState) : DSState :=
  if params.particleMode then generateParticles params rand s
  else { s with allParticles := [], visibleParticles := [] }

/-- The derived visible subset: particles whose reveal time has passed
(`allParticles.filter(p => p.startTime <= simulationTime)`). -/
noncomputable def visibleSubset (pop : List Particle) (t : ℝ) : List Particle :=
  pop.filter (fun p => decide (p.startTime ≤ t))

/-- The staggered-appearance effect (lines 125-132; hook version lines
139-155): recompute the visible subset and install it only when it is
strictly larger than the current one. -/
noncomputable def visibilityEffect (params : PhysicsParams) (s : DSState) : DSState :=
  if params.particleMode then
    let shouldBeVisible := visibleSubset s.allParticles s.simTime
    if s.visibleParticles.length < shouldBeVisible.length then
      { s with visibleParticles := shouldBeVisible }
    else s
  else s

/-- `handleReset` (lines 134-145): regenerate (which zeroes the clock) in
particle mode, otherwise zero the clock directly and clear the lists. -/
noncomputable def handleReset (params : PhysicsParams) (rand : ℕ → ℝ)
    (s : DSState) : DSState :=
  if params.particleMode then generateParticles params rand s
  else { s with simTime := 0, refSimTime := 0, lastTimestamp := 0,
                allParticles := [], visibleParticles := [] }

/-- A re-render of the display layer: React preserves `useState` values and
`useRef` cells across re-renders, so a re-render leaves the component
state unchanged. -/
def rerender (s : DSState) : DSState := s

/-- C9: the accumulated simulation time is zeroed exactly by particle
regeneration (`generateParticles`, which also fires when particle mode
becomes enabled) and by an explicit reset (in either of its two branches);
the mode-disable branch, the visibility effect and re-renders of the
display layer all preserve it. -/
theorem simTime_reset_lifecycle (params : PhysicsParams) (rand : ℕ → ℝ)
    (s : DSState) :
    (generateParticles params rand s).simTime = 0 ∧
    (handleReset params rand s).simTime = 0 ∧
    (particleModeEffect params rand s).simTime =
      (if params.particleMode then 0 else s.simTime) ∧
    (visibilityEffect params s).simTime = s.simTime ∧
    (rerender s).simTime = s.simTime := by
  refine ⟨rfl, ?_, ?_, ?_, rfl⟩
  · unfold handleReset
    cases params.particleMode <;> simp [generateParticles]
  · unfold particleModeEffect
    cases params.particleMode <;> simp [generateParticles]
  · unfold visibilityEffect
    cases params.particleMode
    · simp
    · simp only [if_true]
      split <;> rfl

/-- C10: visibility is monotone in simulation time.  For a fixed population
the visible subset at an earlier time is a sublist (so no revealed particle
is ever dropped) and hence no longer than the one at a later time; and the
stateful effect never shrinks the stored visible list — it either leaves
the state untouched or replaces the list by a strictly larger recomputed
subset. -/
theorem visibility_monotone (pop : List Particle) (t1 t2 : ℝ)
    (params : PhysicsParams) (s : DSState) (h : t1 ≤ t2) :
    (visibleSubset pop t1).length ≤ (visibleSubset pop t2).length ∧
    List.Sublist (visibleSubset pop t1) (visibleSubset pop t2) ∧
    s.visibleParticles.length ≤ (visibilityEffect params s).visibleParticles.length ∧
    (visibilityEffect params s = s ∨
      (s.visibleParticles.length < (visibleSubset s.allParticles s.simTime).length ∧
        visibilityEffect params s =
          { s with visibleParticles := visibleSubset s.allParticles s.simTime })) := by
  have hsub : List.Sublist (visibleSubset pop t1) (visibleSubset pop t2) := by
    apply List.monotone_filter_right
    intro a ha
    simp only [decide_eq_true_eq] at ha ⊢
    linarith
  refine ⟨hsub.length_le, hsub, ?_, ?_⟩
  · unfold visibilityEffect
    cases params.particleMode
    · simp
    · simp only [if_true]
      split
      · next hlt => exact le_of_lt hlt
      · exact le_refl _
  · unfold visibilityEffect
    cases params.particleMode
    · simp
    · simp only [if_true]
      split
      · next hlt => exact Or.inr ⟨hlt, rfl⟩
      · exact Or.inl rfl

/-- A one-particle population used by the C10 witness. -/
noncomputable def witnessPop : List Particle := [⟨(10, 0, 1), 1⟩]

/-- An empty component state used by the C10 witness. -/
noncomputable def witnessState : DSState := ⟨0, 0, 0, [], []⟩

/-- Witness for C10 at concrete times 0 ≤ 2 on a concrete population. -/
theorem visibility_monotone_witness :
    (visibleSubset witnessPop 0).length ≤ (visibleSubset witnessPop 2).length ∧
    List.Sublist (visibleSubset witnessPop 0) (visibleSubset witnessPop 2) ∧
    witnessState.visibleParticles.length ≤
      (visibilityEffect defaultParams witnessState).visibleParticles.length ∧
    (visibilityEffect defaultParams witnessState = witnessState ∨
      (witnessState.visibleParticles.length <
          (visibleSubset witnessState.allParticles witnessState.simTime).length ∧
        visibilityEffect defaultParams witnessState =
          { witnessState with
              visibleParticles :=
                visibleSubset witnessState.allParticles witnessState.simTime })) :=
  visibility_monotone witnessPop 0 2 defaultParams witnessState (by norm_num)

end Duality
